import Mathlib

/-!
Shallow embedding of the interiorServerMongo backend: the Product routes
(list, get, create, update, delete with media cleanup), the Cloudinary
public-id extractor, the mongoose Product schema validation rules, and the
multer upload pipeline with its error middleware.  Pure JavaScript string
and number behaviour (split, join, truthiness, parseFloat of an absent
value) is modelled explicitly; external collaborators (the document store,
the blob store) are modelled as explicit state and oracles.
-/

namespace InteriorServer

/-! ## JavaScript value helpers -/

/-- Js number restricted to the values the claims exercise: an integer or NaN.
NaN arises from parseFloat applied to an absent value. -/
inductive JsNum where
  | nan : JsNum
  | num : Int → JsNum
deriving DecidableEq

/-- Models the JavaScript expression parseFloat applied to a field that is
either absent (undefined, giving NaN) or a numeric value. -/
def parseFloatOpt : Option Int → JsNum
  | none => JsNum.nan
  | some v => JsNum.num v

/-- Js truthiness test for an optional string field: undefined and the empty
string are falsy. -/
def strFalsy : Option String → Bool
  | none => true
  | some s => s = ""

/-- Js truthiness test for an optional numeric field: undefined and 0 are
falsy (NaN cannot occur before parseFloat in the handlers). -/
def numFalsy : Option Int → Bool
  | none => true
  | some n => n = 0

/-- Js whitespace test for the characters String.prototype.trim removes
(restricted to the common ASCII whitespace). -/
def isWs (c : Char) : Bool := c = ' ' || c = '\t' || c = '\n' || c = '\r'

/-- Models String.prototype.trim: drop whitespace from both ends. -/
def jsTrim (s : String) : String :=
  String.mk (((s.data.dropWhile isWs).reverse.dropWhile isWs).reverse)

/-- Splits a character list at every occurrence of the separator, keeping
empty groups, exactly as String.prototype.split does for a one-character
separator. -/
def splitOnChar (sep : Char) : List Char → List (List Char)
  | [] => [[]]
  | c :: rest =>
    match splitOnChar sep rest with
    | [] => if c = sep then [[], []] else [[c]]
    | g :: gs => if c = sep then [] :: g :: gs else (c :: g) :: gs

/-- Models url.split applied with the slash separator. -/
def jsSplit (s : String) : List String :=
  (splitOnChar '/' s.data).map String.mk

/-- Models Array.prototype.indexOf: index of the first exact match, none when
absent (the JavaScript code tests for -1). -/
def jsIndexOf (target : String) : List String → Option Nat
  | [] => none
  | a :: rest => if a = target then some 0 else (jsIndexOf target rest).map (· + 1)

/-- Models Array.prototype.join with the slash separator. -/
def joinWithSlash : List String → String
  | [] => ""
  | [a] => a
  | a :: rest => a ++ "/" ++ joinWithSlash rest

/-! ## Media reference extractor (routes/productRoutes.js, extractPublicId) -/

/-- Models the regular-expression replacement that removes a trailing dot
followed by one or more characters none of which is a dot or a slash.  The
match, when it exists, starts at the last dot of the string, and only when
the text after that dot is non-empty and slash-free. -/
def stripFileExt (s : String) : String :=
  let rev := s.data.reverse
  let ext := rev.takeWhile (fun c => !(c = '.') && !(c = '/'))
  match rev.drop ext.length with
  | '.' :: rest => if ext.isEmpty then s else String.mk rest.reverse
  | _ => s

/-- Embedding of extractPublicId from the product routes: split the url on
slashes, locate the upload segment, and when something follows it return the
joined remainder with the trailing file extension removed.  The version
segment after upload is NOT removed by this function. -/
def extractPublicId (url : String) : Option String :=
  if url = "" then none
  else
    let urlParts := jsSplit url
    match jsIndexOf "upload" urlParts with
    | none => none
    | some uploadIndex =>
      if uploadIndex + 1 < urlParts.length then
        some (stripFileExt (joinWithSlash (urlParts.drop (uploadIndex + 1))))
      else none

/-! ## Product data model (models/Product.js) -/

/-- Timestamp values assigned by the mongoose timestamps option; modelled as
an abstract clock reading. -/
abbrev Timestamp := Nat

/-- A stored Product document: the seven writable schema fields plus the
storage-assigned id and the two managed timestamps. -/
structure Product where
  id : String
  product_name : String
  price_new : JsNum
  brand : String
  category : String
  description : String
  image_url : String
  video_url : String
  created_at : Timestamp
  updated_at : Timestamp
deriving DecidableEq

/-- The document store holding Product records. -/
abbrev Db := List Product

/-- Models Product.findById against the store. -/
def findById (db : Db) (productId : String) : Option Product :=
  db.find? (fun p => p.id = productId)

/-- Models Product.findByIdAndUpdate: the first record with the id is
replaced by the new document. -/
def replaceById (db : Db) (productId : String) (p' : Product) : Db :=
  db.map (fun q => if q.id = productId then p' else q)

/-- Models Product.findByIdAndDelete: records with the id are removed. -/
def eraseById (db : Db) (productId : String) : Db :=
  db.filter (fun q => !(q.id = productId))

/-- Hex digit test used by the identifier format check. -/
def isHexChar (c : Char) : Bool :=
  c.isDigit || ('a' ≤ c && c ≤ 'f') || ('A' ≤ c && c ≤ 'F')

/-- Models mongoose.Types.ObjectId.isValid, the storage backend native
identifier format check (library code, not part of this repository): a
24-character hexadecimal string. -/
def isValidObjectId (s : String) : Bool :=
  s.length = 24 && s.data.all isHexChar

/-! ## Schema validation (models/Product.js) -/

/-- Price minimum rule of the schema: min 0 fails exactly on a negative
number; NaN does not compare below zero, so it passes. -/
def priceNegative : JsNum → Bool
  | JsNum.nan => false
  | JsNum.num v => v < 0

/-- Mongoose validation of a trimmed required text path: the trim setter runs
first, then the required rule (empty after trim fails) and the maxlength
rule, each contributing its schema message. -/
def validateTrimmedText (value reqMsg maxMsg : String) (maxLen : Nat) : List String :=
  (if jsTrim value = "" then [reqMsg] else [])
    ++ (if (jsTrim value).length > maxLen then [maxMsg] else [])

/-- Mongoose validation messages for a full Product document, in schema path
order: product_name, price_new, brand, category, description. -/
def validateProductData (name : String) (price : JsNum)
    (brand category descr : String) : List String :=
  validateTrimmedText name "Product name is required"
      "Product name cannot exceed 200 characters" 200
    ++ (if priceNegative price then ["Price cannot be negative"] else [])
    ++ validateTrimmedText brand "Brand is required"
      "Brand cannot exceed 100 characters" 100
    ++ validateTrimmedText category "Category is required"
      "Category cannot exceed 100 characters" 100
    ++ (if descr.length > 1000 then ["Description cannot exceed 1000 characters"] else [])

/-! ## Request bodies -/

/-- A parsed JSON request body for the product routes; none models an absent
(undefined) field. -/
structure IncomingBody where
  product_name : Option String
  price_new : Option Int
  brand : Option String
  category : Option String
  description : Option String
  image_url : Option String
  video_url : Option String
deriving DecidableEq

/-- Models the Object.keys length test of the create handler: the parsed
body carries no field. -/
def IncomingBody.isEmptyObj (b : IncomingBody) : Bool :=
  b.product_name.isNone && b.price_new.isNone && b.brand.isNone
    && b.category.isNone && b.description.isNone && b.image_url.isNone
    && b.video_url.isNone

/-- Backend calls a handler can issue against the document store. -/
inductive DbCall where
  | findAll : DbCall
  | findByIdCall : String → DbCall
  | saveCall : DbCall
  | updateCall : String → DbCall
  | deleteCall : String → DbCall
deriving DecidableEq

/-! ## GET /products (list) -/

/-- Descending created_at order used by the list route sort. -/
def createdDesc (a b : Product) : Prop := b.created_at ≤ a.created_at

instance : DecidableRel createdDesc := fun a b => Nat.decLe b.created_at a.created_at

instance : IsTotal Product createdDesc :=
  ⟨fun a b => (Nat.le_total b.created_at a.created_at).elim Or.inl Or.inr⟩

instance : IsTrans Product createdDesc :=
  ⟨fun _ _ _ h1 h2 => Nat.le_trans h2 h1⟩

/-- Models the find-all query sorted on created_at descending. -/
def sortByCreatedDesc (db : Db) : List Product :=
  List.insertionSort createdDesc db

/-- Response of the list route. -/
structure ListResult where
  status : Nat
  success : Bool
  count : Nat
  data : List Product
deriving DecidableEq

/-- Embedding of the GET products route: fetch all records sorted by
created_at descending and answer 200 with the count and the data. -/
def listProductsHandler (db : Db) : ListResult :=
  let products := sortByCreatedDesc db
  { status := 200, success := true, count := products.length, data := products }

/-! ## GET /products/:id -/

/-- Response of the single-product route. -/
structure GetResult where
  status : Nat
  success : Bool
  error : Option String
  data : Option Product
  dbCalls : List DbCall
deriving DecidableEq

/-- Embedding of the GET single product route: identifier format is checked
before any backend query; a malformed id answers 400 with no query, an
absent record answers 404. -/
def getProductHandler (db : Db) (productId : String) : GetResult :=
  if isValidObjectId productId then
    match findById db productId with
    | none =>
      { status := 404, success := false, error := some "Product not found",
        data := none, dbCalls := [DbCall.findByIdCall productId] }
    | some p =>
      { status := 200, success := true, error := none,
        data := some p, dbCalls := [DbCall.findByIdCall productId] }
  else
    { status := 400, success := false, error := some "Invalid product ID format",
      data := none, dbCalls := [] }

/-! ## POST /products (create) -/

/-- Response of the create route. -/
structure CreateResult where
  status : Nat
  success : Bool
  error : Option String
  productId : Option String
  data : Option Product
  db : Db
deriving DecidableEq

/-- Embedding of the POST products route: an empty body answers 400, a falsy
required field answers 400 with the missing-fields message, schema rule
violations answer 400 with the aggregated validation message, and otherwise
the document is saved with both timestamps set to the current clock. -/
def createProductHandler (db : Db) (now : Timestamp) (newId : String)
    (body : IncomingBody) : CreateResult :=
  if body.isEmptyObj then
    { status := 400, success := false, error := some "Request body is missing.",
      productId := none, data := none, db := db }
  else if strFalsy body.product_name || numFalsy body.price_new
      || strFalsy body.brand || strFalsy body.category then
    { status := 400, success := false,
      error := some "Missing required fields: product_name, price_new, brand, category",
      productId := none, data := none, db := db }
  else
    let name := body.product_name.getD ""
    let price := parseFloatOpt body.price_new
    let brand := body.brand.getD ""
    let category := body.category.getD ""
    let descr := body.description.getD ""
    let image := body.image_url.getD ""
    let video := body.video_url.getD ""
    let msgs := validateProductData name price brand category descr
    if msgs.isEmpty then
      let p : Product :=
        { id := newId, product_name := jsTrim name, price_new := price,
          brand := jsTrim brand, category := jsTrim category,
          description := descr, image_url := image, video_url := video,
          created_at := now, updated_at := now }
      { status := 201, success := true, error := none,
        productId := some newId, data := some p, db := db ++ [p] }
    else
      { status := 400, success := false,
        error := some ("Validation failed: " ++ String.intercalate ", " msgs),
        productId := none, data := none, db := db }

/-! ## PUT /products/:id (update) -/

/-- The update document the PUT route builds: the three optional text fields
are always present (defaulted to empty), price_new is always present (NaN
when the field was absent), and the three required text fields are absent
exactly when the body omitted them (mongoose strips undefined update keys). -/
structure UpdateData where
  product_name : Option String
  price_new : JsNum
  brand : Option String
  category : Option String
  description : String
  image_url : String
  video_url : String
deriving DecidableEq

/-- Builds the update document from the request body exactly as the PUT
route destructuring with defaults does. -/
def mkUpdateData (body : IncomingBody) : UpdateData :=
  { product_name := body.product_name,
    price_new := parseFloatOpt body.price_new,
    brand := body.brand,
    category := body.category,
    description := body.description.getD "",
    image_url := body.image_url.getD "",
    video_url := body.video_url.getD "" }

/-- Mongoose update validators run only on the paths present in the update
document; messages in schema path order. -/
def validateUpdateData (u : UpdateData) : List String :=
  (match u.product_name with
    | none => []
    | some s => validateTrimmedText s "Product name is required"
        "Product name cannot exceed 200 characters" 200)
    ++ (if priceNegative u.price_new then ["Price cannot be negative"] else [])
    ++ (match u.brand with
      | none => []
      | some s => validateTrimmedText s "Brand is required"
          "Brand cannot exceed 100 characters" 100)
    ++ (match u.category with
      | none => []
      | some s => validateTrimmedText s "Category is required"
          "Category cannot exceed 100 characters" 100)
    ++ (if u.description.length > 1000 then ["Description cannot exceed 1000 characters"] else [])

/-- Applies the update document to the stored record: paths present in the
document are written (trim setter on the trimmed paths), absent paths keep
their stored value, updated_at is refreshed by the timestamps option, and id
and created_at are untouched. -/
def applyUpdate (p : Product) (u : UpdateData) (now : Timestamp) : Product :=
  { p with
    product_name := (u.product_name.map jsTrim).getD p.product_name,
    price_new := u.price_new,
    brand := (u.brand.map jsTrim).getD p.brand,
    category := (u.category.map jsTrim).getD p.category,
    description := u.description,
    image_url := u.image_url,
    video_url := u.video_url,
    updated_at := now }

/-- Response of the update route. -/
structure UpdateResult where
  status : Nat
  success : Bool
  error : Option String
  data : Option Product
  dbCalls : List DbCall
  db : Db
deriving DecidableEq

/-- Embedding of the PUT products route: identifier check before any query,
404 when absent, then the update document goes through mongoose casting
first: price_new NaN (parseFloat of an omitted field) fails the number cast,
findByIdAndUpdate throws a CastError whose name is not ValidationError, and
the catch answers 500; otherwise the update validators run on the provided
paths and the update document replaces the stored record. -/
def updateProductHandler (db : Db) (now : Timestamp) (productId : String)
    (body : IncomingBody) : UpdateResult :=
  if isValidObjectId productId then
    match findById db productId with
    | none =>
      { status := 404, success := false, error := some "Product not found",
        data := none, dbCalls := [DbCall.findByIdCall productId], db := db }
    | some p =>
      let u := mkUpdateData body
      match u.price_new with
      | JsNum.nan =>
        { status := 500, success := false,
          error := some "Failed to update product: Cast to Number failed for value NaN at path price_new",
          data := none,
          dbCalls := [DbCall.findByIdCall productId, DbCall.updateCall productId],
          db := db }
      | JsNum.num _ =>
      let msgs := validateUpdateData u
      if msgs.isEmpty then
        let p' := applyUpdate p u now
        { status := 200, success := true, error := none, data := some p',
          dbCalls := [DbCall.findByIdCall productId, DbCall.updateCall productId],
          db := replaceById db productId p' }
      else
        { status := 400, success := false,
          error := some ("Validation failed: " ++ String.intercalate ", " msgs),
          data := none,
          dbCalls := [DbCall.findByIdCall productId, DbCall.updateCall productId],
          db := db }
  else
    { status := 400, success := false, error := some "Invalid product ID format",
      data := none, dbCalls := [], db := db }

/-! ## DELETE /products/:id (delete with media cleanup) -/

/-- A blob-store delete call as issued by the delete route: the public id,
the resource_type option passed to the destroy call (none means the
Cloudinary default, image), and whether the call succeeded. -/
structure CloudCall where
  publicId : String
  resourceTypeArg : Option String
  ok : Bool
deriving DecidableEq

/-- Behaviour of the blob store on a destroy call: ok, or a thrown error. -/
abbrev CloudOracle := String → Option String → Except String Unit

/-- Models one destroy call wrapped in its try-catch: a thrown error is
caught (and logged), so both branches produce a recorded call and control
continues. -/
def destroyAttempt (oracle : CloudOracle) (pid : String) (rt : Option String) : CloudCall :=
  match oracle pid rt with
  | Except.ok _ => { publicId := pid, resourceTypeArg := rt, ok := true }
  | Except.error _ => { publicId := pid, resourceTypeArg := rt, ok := false }

/-- One media field of the cleanup step of the delete route: the url is
tested for truthiness, the extractor runs, and its result is again tested
for truthiness before the destroy call, so a null result and the empty
string both issue no call.  Both source blocks have this shape; they differ
only in the resource type option passed to destroy. -/
def cleanupSide (oracle : CloudOracle) (url : String) (rt : Option String) : List CloudCall :=
  if url = "" then []
  else
    match extractPublicId url with
    | some pid => if pid = "" then [] else [destroyAttempt oracle pid rt]
    | none => []

/-- The media cleanup step of the delete route: the image block with the
default resource type, then the video block tagged video. -/
def cleanupCalls (oracle : CloudOracle) (p : Product) : List CloudCall :=
  cleanupSide oracle p.image_url none ++ cleanupSide oracle p.video_url (some "video")

/-- Response of the delete route, together with the calls it issued. -/
structure DeleteResult where
  status : Nat
  success : Bool
  error : Option String
  dbCalls : List DbCall
  cloudCalls : List CloudCall
  db : Db
deriving DecidableEq

/-- Embedding of the DELETE products route: identifier check before any
query; 404 when the record is absent (nothing deleted); otherwise best-effort
media cleanup whose failures are caught, then the record is deleted and the
route answers success. -/
def deleteProductHandler (oracle : CloudOracle) (db : Db) (productId : String) : DeleteResult :=
  if isValidObjectId productId then
    match findById db productId with
    | none =>
      { status := 404, success := false, error := some "Product not found",
        dbCalls := [DbCall.findByIdCall productId], cloudCalls := [], db := db }
    | some p =>
      let calls := cleanupCalls oracle p
      { status := 200, success := true, error := none,
        dbCalls := [DbCall.findByIdCall productId, DbCall.deleteCall productId],
        cloudCalls := calls, db := eraseById db productId }
  else
    { status := 400, success := false, error := some "Invalid product ID format",
      dbCalls := [], cloudCalls := [], db := db }

/-! ## Upload pipeline (routes/uploadRoutes.js) -/

/-- The declared metadata of an incoming file. -/
structure FileMeta where
  originalname : String
  mimetype : String
  size : Nat
deriving DecidableEq

/-- The media type allow list of the upload fileFilter. -/
def allowedTypes : List String :=
  ["image/jpeg", "image/jpg", "image/png", "image/gif",
   "video/mp4", "video/mov", "video/avi", "video/webm", "video/x-matroska"]

/-- Errors the multer pipeline can hand to the error middleware: a
MulterError with its code, or the plain Error the fileFilter passes to its
callback. -/
inductive UploadErr where
  | limitFileSize : UploadErr
  | limitUnexpectedFile : UploadErr
  | otherMulter : String → UploadErr
  | plainError : String → UploadErr
deriving DecidableEq

/-- The fileFilter of the upload route: an allowed mimetype is accepted,
anything else is rejected with a plain Error (not a MulterError). -/
def fileFilterCheck (f : FileMeta) : Except UploadErr Unit :=
  if allowedTypes.contains f.mimetype then Except.ok ()
  else Except.error (UploadErr.plainError
    "Only images (JPEG, PNG, GIF) and videos (MP4, MOV, AVI, WEBM) are allowed")

/-- The 50 MiB multer size ceiling. -/
def fileSizeLimit : Nat := 50 * 1024 * 1024

/-- Models multer single-file handling: the fileFilter runs before any byte
is transferred; an accepted file larger than the limit aborts with the
MulterError LIMIT_FILE_SIZE. -/
def multerSingle (f : FileMeta) : Except UploadErr Unit :=
  match fileFilterCheck f with
  | Except.error e => Except.error e
  | Except.ok _ =>
    if f.size > fileSizeLimit then Except.error UploadErr.limitFileSize
    else Except.ok ()

/-- The status the upload error middleware answers with: MulterErrors are
mapped to 400, any other error falls through to the 500 branch. -/
def uploadErrorStatus : UploadErr → Nat
  | UploadErr.limitFileSize => 400
  | UploadErr.limitUnexpectedFile => 400
  | UploadErr.otherMulter _ => 400
  | UploadErr.plainError _ => 500

/-- Outcome of one upload request: the response status, the success flag,
and whether the file was written to the blob store. -/
structure UploadOutcome where
  status : Nat
  success : Bool
  stored : Bool
deriving DecidableEq

/-- Embedding of the POST upload route composed with the multer middleware
and the error middleware: a pipeline error is answered by the error
middleware and nothing is stored; an accepted file is stored and answered
with 200. -/
def handleUpload (f : FileMeta) : UploadOutcome :=
  match multerSingle f with
  | Except.error e => { status := uploadErrorStatus e, success := false, stored := false }
  | Except.ok _ => { status := 200, success := true, stored := true }

/-! ## Helper lemmas -/

/-- Array.prototype.indexOf yields no index when the target is absent. -/
theorem jsIndexOf_eq_none (target : String) (l : List String) (h : target ∉ l) :
    jsIndexOf target l = none := by
  induction l with
  | nil => rfl
  | cons a rest ih =>
    have hne : ¬ a = target := by
      intro ha
      exact h (by simp [ha])
    have hrest : target ∉ rest := by
      intro hm
      exact h (List.mem_cons_of_mem a hm)
    simp [jsIndexOf, hne, ih hrest]

/-- After erasing an id, no record with that id remains findable. -/
theorem findById_eraseById (db : Db) (productId : String) :
    findById (eraseById db productId) productId = none := by
  induction db with
  | nil => rfl
  | cons q rest ih =>
    by_cases h : q.id = productId
    · simp only [eraseById] at ih ⊢
      rw [List.filter_cons, if_neg (by simp [h])]
      exact ih
    · simp only [eraseById] at ih ⊢
      rw [List.filter_cons, if_pos (by simp [h])]
      simp only [findById] at ih ⊢
      rw [List.find?_cons_of_neg _ (by simpa using h)]
      exact ih

/-- A found record carries the id it was looked up by. -/
theorem findById_eq_id (db : Db) (productId : String) (p : Product)
    (h : findById db productId = some p) : p.id = productId := by
  have hp := List.find?_some h
  simpa using hp

/-- Replacing the found record makes the replacement findable under the id. -/
theorem findById_replaceById_self (db : Db) (productId : String) (p p' : Product)
    (hfind : findById db productId = some p) (hid : p'.id = productId) :
    findById (replaceById db productId p') productId = some p' := by
  induction db with
  | nil => simp [findById] at hfind
  | cons q rest ih =>
    by_cases h : q.id = productId
    · simp [replaceById, findById, List.find?_cons, h, hid]
    · have hfind2 : findById rest productId = some p := by
        simpa [findById, List.find?_cons, h] using hfind
      simpa [replaceById, findById, List.find?_cons, h] using ih hfind2

/-- Replacing one id leaves lookups of every other id unchanged. -/
theorem findById_replaceById_ne (db : Db) (productId otherId : String) (p' : Product)
    (hne : otherId ≠ productId) (hid : p'.id = productId) :
    findById (replaceById db productId p') otherId = findById db otherId := by
  induction db with
  | nil => rfl
  | cons q rest ih =>
    simp only [findById, replaceById, List.map_cons] at ih ⊢
    by_cases h : q.id = productId
    · rw [if_pos h]
      have h1 : ¬ p'.id = otherId := by
        rw [hid]
        exact fun hc => hne hc.symm
      have h2 : ¬ q.id = otherId := by
        rw [h]
        exact fun hc => hne hc.symm
      rw [List.find?_cons_of_neg _ (by simpa using h1),
        List.find?_cons_of_neg _ (by simpa using h2)]
      exact ih
    · rw [if_neg h]
      by_cases h3 : q.id = otherId
      · rw [List.find?_cons_of_pos _ (by simpa using h3),
          List.find?_cons_of_pos _ (by simpa using h3)]
      · rw [List.find?_cons_of_neg _ (by simpa using h3),
          List.find?_cons_of_neg _ (by simpa using h3)]
        exact ih

/-- A destroy attempt records the public id it was issued with. -/
theorem destroyAttempt_publicId (oracle : CloudOracle) (pid : String) (rt : Option String) :
    (destroyAttempt oracle pid rt).publicId = pid := by
  unfold destroyAttempt
  cases oracle pid rt <;> rfl

/-- A destroy attempt records the resource type option it was issued with. -/
theorem destroyAttempt_rt (oracle : CloudOracle) (pid : String) (rt : Option String) :
    (destroyAttempt oracle pid rt).resourceTypeArg = rt := by
  unfold destroyAttempt
  cases oracle pid rt <;> rfl

/-! ## Shared concrete data for witnesses and counterexamples -/

/-- A well-formed 24-hex-character identifier. -/
def sampleId : String := "aaaaaaaaaaaaaaaaaaaaaaaa"

/-- A second, distinct well-formed identifier. -/
def otherSampleId : String := "bbbbbbbbbbbbbbbbbbbbbbbb"

/-- A stored product with a versioned Cloudinary image url and no video. -/
def sampleProductMedia : Product :=
  { id := sampleId, product_name := "Sofa", price_new := JsNum.num 100,
    brand := "B", category := "C", description := "",
    image_url := "https://host/x/upload/v123/folder/file.png", video_url := "",
    created_at := 1, updated_at := 1 }

/-- A stored product without media, used by the update claims. -/
def sampleStored : Product :=
  { id := sampleId, product_name := "Sofa", price_new := JsNum.num 10,
    brand := "OldBrand", category := "OldCat", description := "old",
    image_url := "", video_url := "", created_at := 1, updated_at := 1 }

/-- A blob store on which every destroy call throws. -/
def failingOracle : CloudOracle := fun _ _ => Except.error "network down"

/-- An upload request declaring the application pdf media type. -/
def pdfFile : FileMeta :=
  { originalname := "doc.pdf", mimetype := "application/pdf", size := 1024 }

/-- An allowed video one byte over the 50 MiB ceiling. -/
def bigVideo : FileMeta :=
  { originalname := "v.mp4", mimetype := "video/mp4", size := 52428801 }

/-! ## C1: media reference extractor -/

/-- C1 counterexample: on the spec unit case with a version segment, the
extractor keeps the version prefix, so the claimed result folder/file is
wrong; the code returns v123/folder/file. -/
theorem c1_extract_counterexample :
    extractPublicId "https://host/x/upload/v123/folder/file.png" = some "v123/folder/file"
    ∧ extractPublicId "https://host/x/upload/v123/folder/file.png" ≠ some "folder/file" := by
  exact ⟨rfl, by decide⟩

/-- C1 (amended): extractPublicId returns none when the slash-delimited url
contains no upload segment, and otherwise returns everything after the
upload segment with only the trailing extension removed; the leading version
segment is NOT stripped, so the versioned unit case yields v123/folder/file,
the unversioned case yields folder/file, and no-upload-segment yields none. -/
theorem c1_extractPublicId_amended :
    (∀ url : String, "upload" ∉ jsSplit url → extractPublicId url = none)
    ∧ extractPublicId "https://host/x/upload/v123/folder/file.png" = some "v123/folder/file"
    ∧ extractPublicId "https://host/x/upload/folder/file.jpg" = some "folder/file"
    ∧ extractPublicId "no-upload-segment" = none := by
  refine ⟨?_, rfl, rfl, rfl⟩
  intro url h
  unfold extractPublicId
  by_cases hu : url = ""
  · simp [hu]
  · simp [hu, jsIndexOf_eq_none "upload" (jsSplit url) h]

/-- C1 witness: the amended theorem applied at a url without an upload
segment, and at the versioned unit case. -/
theorem c1_extractPublicId_amended_witness :
    extractPublicId "no/upl/x" = none
    ∧ extractPublicId "https://host/x/upload/v123/folder/file.png" = some "v123/folder/file" :=
  ⟨c1_extractPublicId_amended.1 "no/upl/x" (by decide), c1_extractPublicId_amended.2.1⟩

/-! ## C2: cleanup failure isolation -/

/-- C2: for every blob-store behaviour, deleting an existing product (well
formed id, record present) answers 200 with success and removes the record
from the store; moreover status and resulting store are identical under any
two blob-store behaviours, so a throwing or failing destroy call is caught
and discarded and never blocks or rolls back the deletion. -/
theorem c2_cleanup_failure_isolated (oracle oracle2 : CloudOracle) (db : Db)
    (productId : String) (p : Product)
    (hvalid : isValidObjectId productId = true)
    (hfind : findById db productId = some p) :
    (deleteProductHandler oracle db productId).status = 200
    ∧ (deleteProductHandler oracle db productId).success = true
    ∧ findById (deleteProductHandler oracle db productId).db productId = none
    ∧ (deleteProductHandler oracle2 db productId).status
        = (deleteProductHandler oracle db productId).status
    ∧ (deleteProductHandler oracle2 db productId).db
        = (deleteProductHandler oracle db productId).db := by
  simp [deleteProductHandler, hvalid, hfind, findById_eraseById]

/-- C2 witness: deleting a stored product with a versioned image url while
every destroy call throws still answers 200 and removes the record. -/
theorem c2_cleanup_failure_isolated_witness :
    (deleteProductHandler failingOracle [sampleProductMedia] sampleId).status = 200
    ∧ findById (deleteProductHandler failingOracle [sampleProductMedia] sampleId).db sampleId
        = none :=
  ⟨(c2_cleanup_failure_isolated failingOracle failingOracle [sampleProductMedia] sampleId
      sampleProductMedia (by decide) (by decide)).1,
   (c2_cleanup_failure_isolated failingOracle failingOracle [sampleProductMedia] sampleId
      sampleProductMedia (by decide) (by decide)).2.2.1⟩

/-! ## C3: upload rejection -/

/-- C3 counterexample: an upload declaring application/pdf is rejected before
being stored, but the response status is 500 (the fileFilter passes a plain
Error, which the multer error middleware does not map to 400), contradicting
the claimed client error 400. -/
theorem c3_upload_counterexample :
    (handleUpload pdfFile).success = false
    ∧ (handleUpload pdfFile).stored = false
    ∧ (handleUpload pdfFile).status = 500
    ∧ (handleUpload pdfFile).status ≠ 400 := by
  exact ⟨rfl, rfl, rfl, by decide⟩

/-- C3 (amended): a file whose declared media type is outside the allowed
set is rejected before being written to storage but with HTTP 500, because
the fileFilter rejects with a plain Error that the error middleware maps to
the server-error branch; a file of an allowed type exceeding the 50 MiB
ceiling is rejected with HTTP 400 via the MulterError LIMIT_FILE_SIZE branch
and is not stored. -/
theorem c3_upload_rejection_amended (f : FileMeta) :
    (allowedTypes.contains f.mimetype = false →
      (handleUpload f).status = 500 ∧ (handleUpload f).success = false
        ∧ (handleUpload f).stored = false)
    ∧ (allowedTypes.contains f.mimetype = true → f.size > fileSizeLimit →
      (handleUpload f).status = 400 ∧ (handleUpload f).success = false
        ∧ (handleUpload f).stored = false) := by
  constructor
  · intro h
    have hm : f.mimetype ∉ allowedTypes := by simpa using h
    simp [handleUpload, multerSingle, fileFilterCheck, hm, uploadErrorStatus]
  · intro h hsize
    have hm : f.mimetype ∈ allowedTypes := by simpa using h
    simp [handleUpload, multerSingle, fileFilterCheck, hm, hsize, uploadErrorStatus]

/-- C3 witness: the amended theorem applied to the pdf upload and to an
allowed video one byte over the ceiling. -/
theorem c3_upload_rejection_amended_witness :
    ((handleUpload pdfFile).status = 500 ∧ (handleUpload pdfFile).success = false
      ∧ (handleUpload pdfFile).stored = false)
    ∧ ((handleUpload bigVideo).status = 400 ∧ (handleUpload bigVideo).success = false
      ∧ (handleUpload bigVideo).stored = false) :=
  ⟨(c3_upload_rejection_amended pdfFile).1 (by decide),
   (c3_upload_rejection_amended bigVideo).2 (by decide) (by decide)⟩

/-! ## C4: delete cleanup call pattern -/

/-- One cleanup block issues a call exactly when its url is truthy and the
extractor yields a truthy (non-null, non-empty) identifier. -/
theorem cleanupSide_length (oracle : CloudOracle) (url : String) (rt : Option String) :
    (cleanupSide oracle url rt).length
      = (if url ≠ "" ∧ (extractPublicId url).getD "" ≠ "" then 1 else 0) := by
  unfold cleanupSide
  by_cases hu : url = ""
  · simp [hu]
  · cases hext : extractPublicId url with
    | none => simp [hu, hext]
    | some pid =>
      by_cases hp : pid = "" <;> simp [hu, hext, hp]

/-- With a truthy url and a truthy extracted id, the block is exactly one
destroy call for that id. -/
theorem cleanupSide_some (oracle : CloudOracle) (url : String) (rt : Option String)
    (pid : String) (hu : url ≠ "") (hext : extractPublicId url = some pid)
    (hp : pid ≠ "") :
    cleanupSide oracle url rt = [destroyAttempt oracle pid rt] := by
  simp [cleanupSide, hu, hext, hp]

/-- No call of the video block carries the effective image resource type. -/
theorem cleanupSide_video_filter_image (oracle : CloudOracle) (url : String) :
    ((cleanupSide oracle url (some "video")).filter
      (fun c => c.resourceTypeArg.getD "image" = "image")) = [] := by
  unfold cleanupSide
  by_cases hu : url = ""
  · simp [hu]
  · cases hext : extractPublicId url with
    | none => simp [hu, hext]
    | some pid =>
      by_cases hp : pid = "" <;> simp [hu, hext, hp, destroyAttempt_rt]

/-- No call of the image block carries the video resource type. -/
theorem cleanupSide_image_filter_video (oracle : CloudOracle) (url : String) :
    ((cleanupSide oracle url none).filter
      (fun c => c.resourceTypeArg.getD "image" = "video")) = [] := by
  unfold cleanupSide
  by_cases hu : url = ""
  · simp [hu]
  · cases hext : extractPublicId url with
    | none => simp [hu, hext]
    | some pid =>
      by_cases hp : pid = "" <;> simp [hu, hext, hp, destroyAttempt_rt]

/-- A stored product whose image url ends right after the upload segment:
the extractor yields the empty string, a non-null identifier that is falsy
in JavaScript. -/
def emptyTailMedia : Product :=
  { id := sampleId, product_name := "Sofa", price_new := JsNum.num 100,
    brand := "B", category := "C", description := "",
    image_url := "https://host/x/upload/", video_url := "",
    created_at := 1, updated_at := 1 }

/-- C4 counterexample: the image url is non-empty and the extractor result
is non-null (the empty string), yet deleting this product issues zero
blob-delete calls because the route also tests the extracted id for
truthiness, contradicting the claimed exactly one call for that field. -/
theorem c4_delete_counterexample :
    emptyTailMedia.image_url ≠ ""
    ∧ extractPublicId emptyTailMedia.image_url = some ""
    ∧ (deleteProductHandler failingOracle [emptyTailMedia] sampleId).status = 200
    ∧ (deleteProductHandler failingOracle [emptyTailMedia] sampleId).cloudCalls = []
    ∧ (deleteProductHandler failingOracle [emptyTailMedia] sampleId).cloudCalls.length ≠ 1 := by
  exact ⟨by decide, rfl, rfl, rfl, by decide⟩

/-- C4 (amended): with a well-formed id, deleting an existing product issues
exactly one blob-delete call per media field that is non-empty and whose
extractor result is a non-null, non-empty identifier (the route tests the
extracted id for JavaScript truthiness, so a null or empty result issues no
call); the image call carries the effective default resource type image and
the video call is tagged video; with both media fields empty zero calls are
issued; and when no record matches, the route answers 404 and deletes
nothing, neither media nor record. -/
theorem c4_delete_cleanup_calls_amended (oracle : CloudOracle) (db : Db) (productId : String)
    (hvalid : isValidObjectId productId = true) :
    (findById db productId = none →
      (deleteProductHandler oracle db productId).status = 404
      ∧ (deleteProductHandler oracle db productId).cloudCalls = []
      ∧ (deleteProductHandler oracle db productId).db = db)
    ∧ (∀ p, findById db productId = some p →
      (deleteProductHandler oracle db productId).cloudCalls.length
        = ((if p.image_url ≠ "" ∧ (extractPublicId p.image_url).getD "" ≠ "" then 1 else 0)
          + (if p.video_url ≠ "" ∧ (extractPublicId p.video_url).getD "" ≠ "" then 1 else 0))
      ∧ (∀ pid, p.image_url ≠ "" → extractPublicId p.image_url = some pid → pid ≠ "" →
        (((deleteProductHandler oracle db productId).cloudCalls.filter
            (fun c => c.resourceTypeArg.getD "image" = "image")).map
          (fun c => c.publicId)) = [pid])
      ∧ (∀ pid, p.video_url ≠ "" → extractPublicId p.video_url = some pid → pid ≠ "" →
        (((deleteProductHandler oracle db productId).cloudCalls.filter
            (fun c => c.resourceTypeArg.getD "image" = "video")).map
          (fun c => c.publicId)) = [pid])
      ∧ (p.image_url = "" ∧ p.video_url = "" →
        (deleteProductHandler oracle db productId).cloudCalls = [])) := by
  constructor
  · intro hfind
    simp [deleteProductHandler, hvalid, hfind]
  · intro p hfind
    have hcalls : (deleteProductHandler oracle db productId).cloudCalls
        = cleanupCalls oracle p := by
      simp [deleteProductHandler, hvalid, hfind]
    rw [hcalls]
    refine ⟨?_, ?_, ?_, ?_⟩
    · unfold cleanupCalls
      rw [List.length_append, cleanupSide_length, cleanupSide_length]
    · intro pid hne hext hp
      unfold cleanupCalls
      rw [List.filter_append, cleanupSide_some oracle p.image_url none pid hne hext hp,
        cleanupSide_video_filter_image]
      simp [destroyAttempt_rt, destroyAttempt_publicId]
    · intro pid hne hext hp
      unfold cleanupCalls
      rw [List.filter_append, cleanupSide_some oracle p.video_url (some "video") pid hne hext hp,
        cleanupSide_image_filter_video]
      simp [destroyAttempt_rt, destroyAttempt_publicId]
    · intro h
      unfold cleanupCalls
      simp [cleanupSide, h.1, h.2]

/-- C4 witness: a missing record answers 404 with no call, and deleting the
stored product with one truthy image public id issues exactly one call. -/
theorem c4_delete_cleanup_calls_amended_witness :
    ((deleteProductHandler failingOracle [] sampleId).status = 404
      ∧ (deleteProductHandler failingOracle [] sampleId).cloudCalls = [])
    ∧ (deleteProductHandler failingOracle [sampleProductMedia] sampleId).cloudCalls.length = 1 :=
  ⟨⟨((c4_delete_cleanup_calls_amended failingOracle [] sampleId (by decide)).1 (by decide)).1,
    ((c4_delete_cleanup_calls_amended failingOracle [] sampleId (by decide)).1 (by decide)).2.1⟩,
   (((c4_delete_cleanup_calls_amended failingOracle [sampleProductMedia] sampleId (by decide)).2
      sampleProductMedia (by decide)).1).trans (by decide)⟩

/-! ## C5: identifier validation ordering -/

/-- C5: for get, update and delete, a malformed id answers 400 with no
backend call, while a well-formed id matching no record answers 404. -/
theorem c5_id_validation_ordering (db : Db) (now : Timestamp) (productId : String)
    (body : IncomingBody) (oracle : CloudOracle) :
    (isValidObjectId productId = false →
      (getProductHandler db productId).status = 400
      ∧ (getProductHandler db productId).dbCalls = []
      ∧ (updateProductHandler db now productId body).status = 400
      ∧ (updateProductHandler db now productId body).dbCalls = []
      ∧ (deleteProductHandler oracle db productId).status = 400
      ∧ (deleteProductHandler oracle db productId).dbCalls = [])
    ∧ (isValidObjectId productId = true → findById db productId = none →
      (getProductHandler db productId).status = 404
      ∧ (updateProductHandler db now productId body).status = 404
      ∧ (deleteProductHandler oracle db productId).status = 404) := by
  constructor
  · intro h
    simp [getProductHandler, updateProductHandler, deleteProductHandler, h]
  · intro h hfind
    simp [getProductHandler, updateProductHandler, deleteProductHandler, h, hfind]

/-- C5 witness: the theorem applied at a malformed id and at a well-formed
absent id over the empty store. -/
theorem c5_id_validation_ordering_witness :
    ((getProductHandler [] "not-a-valid-id").status = 400
      ∧ (getProductHandler [] "not-a-valid-id").dbCalls = [])
    ∧ (getProductHandler [] sampleId).status = 404 :=
  ⟨⟨((c5_id_validation_ordering [] 0 "not-a-valid-id"
        { product_name := none, price_new := none, brand := none, category := none,
          description := none, image_url := none, video_url := none }
        failingOracle).1 (by decide)).1,
    ((c5_id_validation_ordering [] 0 "not-a-valid-id"
        { product_name := none, price_new := none, brand := none, category := none,
          description := none, image_url := none, video_url := none }
        failingOracle).1 (by decide)).2.1⟩,
   ((c5_id_validation_ordering [] 0 sampleId
        { product_name := none, price_new := none, brand := none, category := none,
          description := none, image_url := none, video_url := none }
        failingOracle).2 (by decide) (by decide)).1⟩

/-! ## C6: update replacement semantics -/

/-- An update body omitting product_name but carrying the other required
fields. -/
def bodyOmittingName : IncomingBody :=
  { product_name := none, price_new := some 100, brand := some "B",
    category := some "C", description := none, image_url := none, video_url := none }

/-- An update body with every required field present and the optional fields
omitted. -/
def bodyFullUpdate : IncomingBody :=
  { product_name := some " New ", price_new := some 20, brand := some "B",
    category := some "C", description := none, image_url := none, video_url := none }

/-- C6 counterexample: a successful update whose request omits product_name
keeps the stored value Sofa, so not all writable fields are replaced; the
omitted required text field is preserved rather than reset. -/
theorem c6_update_counterexample :
    bodyOmittingName.product_name = none
    ∧ sampleStored.product_name = "Sofa"
    ∧ (updateProductHandler [sampleStored] 5 sampleId bodyOmittingName).status = 200
    ∧ ((updateProductHandler [sampleStored] 5 sampleId bodyOmittingName).data.map
        (fun q => q.product_name)) = some "Sofa"
    ∧ ("Sofa" : String) ≠ "" := by
  exact ⟨rfl, rfl, rfl, rfl, by decide⟩

/-- C6 (amended): on every successful update, the optional fields
description, image_url and video_url are reset to the value provided or the
empty string when omitted, updated_at is refreshed, and each provided
writable field is replaced (text fields with their trimmed value, price_new
with the parsed number; a successful update always carries price_new, since
omitting it makes the cast fail and the route answer 500); an omitted
product_name, brand or category however is preserved from the stored record,
not replaced. -/
theorem c6_update_full_replace_amended (db : Db) (now : Timestamp) (productId : String)
    (body : IncomingBody) (p p' : Product)
    (hfind : findById db productId = some p)
    (hok : (updateProductHandler db now productId body).status = 200)
    (hdata : (updateProductHandler db now productId body).data = some p') :
    p'.description = body.description.getD ""
    ∧ p'.image_url = body.image_url.getD ""
    ∧ p'.video_url = body.video_url.getD ""
    ∧ p'.updated_at = now
    ∧ body.price_new ≠ none
    ∧ (∀ v, body.price_new = some v → p'.price_new = JsNum.num v)
    ∧ (∀ s, body.product_name = some s → p'.product_name = jsTrim s)
    ∧ (∀ s, body.brand = some s → p'.brand = jsTrim s)
    ∧ (∀ s, body.category = some s → p'.category = jsTrim s)
    ∧ (body.product_name = none → p'.product_name = p.product_name)
    ∧ (body.brand = none → p'.brand = p.brand)
    ∧ (body.category = none → p'.category = p.category) := by
  by_cases hvalid : isValidObjectId productId
  · cases hb : body.price_new with
    | none =>
      exfalso
      have h500 : (updateProductHandler db now productId body).status = 500 := by
        simp [updateProductHandler, hvalid, hfind, mkUpdateData, hb, parseFloatOpt]
      rw [h500] at hok
      exact absurd hok (by decide)
    | some v =>
      have hnum : (mkUpdateData body).price_new = JsNum.num v := by
        simp [mkUpdateData, hb, parseFloatOpt]
      by_cases hmsgs : (validateUpdateData (mkUpdateData body)).isEmpty
      · have hres : (updateProductHandler db now productId body).data
            = some (applyUpdate p (mkUpdateData body) now) := by
          simp [updateProductHandler, hvalid, hfind, hnum, hmsgs]
        rw [hres] at hdata
        have hEq : p' = applyUpdate p (mkUpdateData body) now :=
          (Option.some.inj hdata).symm
        subst hEq
        refine ⟨by simp [applyUpdate, mkUpdateData], by simp [applyUpdate, mkUpdateData],
          by simp [applyUpdate, mkUpdateData], by simp [applyUpdate],
          by simp [hb],
          fun v2 hv2 => by
            obtain rfl : v = v2 := Option.some.inj hv2
            simp [applyUpdate, mkUpdateData, hb, parseFloatOpt],
          fun s hs => by simp [applyUpdate, mkUpdateData, hs],
          fun s hs => by simp [applyUpdate, mkUpdateData, hs],
          fun s hs => by simp [applyUpdate, mkUpdateData, hs],
          fun hnone => by simp [applyUpdate, mkUpdateData, hnone],
          fun hnone => by simp [applyUpdate, mkUpdateData, hnone],
          fun hnone => by simp [applyUpdate, mkUpdateData, hnone]⟩
      · exfalso
        have h400 : (updateProductHandler db now productId body).status = 400 := by
          simp [updateProductHandler, hvalid, hfind, hnum, hmsgs]
        rw [h400] at hok
        exact absurd hok (by decide)
  · exfalso
    have h400 : (updateProductHandler db now productId body).status = 400 := by
      simp [updateProductHandler, hvalid]
    rw [h400] at hok
    exact absurd hok (by decide)

/-- The record produced by the sample successful full update. -/
def updatedSample : Product :=
  { id := sampleId, product_name := "New", price_new := JsNum.num 20,
    brand := "B", category := "C", description := "", image_url := "",
    video_url := "", created_at := 1, updated_at := 5 }

/-- C6 witness: the amended theorem applied to a concrete successful update
that omits the optional fields and provides a padded product_name. -/
theorem c6_update_full_replace_amended_witness :
    updatedSample.description = ""
    ∧ updatedSample.updated_at = 5
    ∧ updatedSample.product_name = jsTrim " New " :=
  ⟨(c6_update_full_replace_amended [sampleStored] 5 sampleId bodyFullUpdate
      sampleStored updatedSample (by decide) (by decide) (by decide)).1,
   (c6_update_full_replace_amended [sampleStored] 5 sampleId bodyFullUpdate
      sampleStored updatedSample (by decide) (by decide) (by decide)).2.2.2.1,
   (c6_update_full_replace_amended [sampleStored] 5 sampleId bodyFullUpdate
      sampleStored updatedSample (by decide) (by decide) (by decide)).2.2.2.2.2.2.1
     " New " rfl⟩

/-! ## C7: create validation errors -/

/-- C7: with a non-empty body, a falsy required field answers 400 with the
missing-fields message, and with all required fields truthy any non-empty
set of schema violations answers 400 with the aggregated validation message
joined by a comma separator. -/
theorem c7_create_validation (db : Db) (now : Timestamp) (newId : String) (body : IncomingBody)
    (hnonempty : body.isEmptyObj = false) :
    ((strFalsy body.product_name || numFalsy body.price_new || strFalsy body.brand
        || strFalsy body.category) = true →
      (createProductHandler db now newId body).status = 400
      ∧ (createProductHandler db now newId body).error
          = some "Missing required fields: product_name, price_new, brand, category")
    ∧ (∀ msgs, (strFalsy body.product_name || numFalsy body.price_new || strFalsy body.brand
        || strFalsy body.category) = false →
      validateProductData (body.product_name.getD "") (parseFloatOpt body.price_new)
          (body.brand.getD "") (body.category.getD "") (body.description.getD "") = msgs →
      msgs ≠ [] →
      (createProductHandler db now newId body).status = 400
      ∧ (createProductHandler db now newId body).error
          = some ("Validation failed: " ++ String.intercalate ", " msgs)) := by
  constructor
  · intro h
    simp [createProductHandler, hnonempty, h]
  · intro msgs h hmsgs hne
    have hEmpty : msgs.isEmpty = false := by
      cases msgs with
      | nil => exact absurd rfl hne
      | cons a l => rfl
    simp [createProductHandler, hnonempty, h, hmsgs, hEmpty]

/-- A create body with a negative price and the other required fields
present and valid. -/
def bodyNegPrice : IncomingBody :=
  { product_name := some "Chair", price_new := some (-5), brand := some "B",
    category := some "C", description := none, image_url := none, video_url := none }

/-- A create body missing product_name with the other required fields
present. -/
def bodyNoName : IncomingBody :=
  { product_name := none, price_new := some 10, brand := some "B",
    category := some "C", description := none, image_url := none, video_url := none }

/-- C7 witness: a missing product_name yields the missing-fields error, and
price -5 yields the aggregated validation error. -/
theorem c7_create_validation_witness :
    ((createProductHandler [] 0 sampleId bodyNoName).status = 400
      ∧ (createProductHandler [] 0 sampleId bodyNoName).error
          = some "Missing required fields: product_name, price_new, brand, category")
    ∧ ((createProductHandler [] 0 sampleId bodyNegPrice).status = 400
      ∧ (createProductHandler [] 0 sampleId bodyNegPrice).error
          = some ("Validation failed: "
              ++ String.intercalate ", " ["Price cannot be negative"])) :=
  ⟨(c7_create_validation [] 0 sampleId bodyNoName (by decide)).1 (by decide),
   (c7_create_validation [] 0 sampleId bodyNegPrice (by decide)).2
     ["Price cannot be negative"] (by decide) (by decide) (by decide)⟩

/-! ## C8: list route -/

/-- C8: the list route answers 200 with the count and the full store sorted
by created_at descending; the empty store yields the empty sequence with
count zero, not an error. -/
theorem c8_list_sorted (db : Db) :
    (listProductsHandler db).status = 200
    ∧ (listProductsHandler db).success = true
    ∧ (listProductsHandler db).count = (listProductsHandler db).data.length
    ∧ (listProductsHandler db).data.Perm db
    ∧ (listProductsHandler db).data.Sorted createdDesc
    ∧ (db = [] → (listProductsHandler db).data = [] ∧ (listProductsHandler db).count = 0) := by
  refine ⟨rfl, rfl, rfl, ?_, ?_, ?_⟩
  · exact List.perm_insertionSort createdDesc db
  · exact List.sorted_insertionSort createdDesc db
  · rintro rfl
    exact ⟨rfl, rfl⟩

/-- C8 witness: the theorem applied to the empty store. -/
theorem c8_list_sorted_witness :
    (listProductsHandler []).status = 200
    ∧ (listProductsHandler []).data = []
    ∧ (listProductsHandler []).count = 0 :=
  ⟨(c8_list_sorted []).1, ((c8_list_sorted []).2.2.2.2.2 rfl).1,
   ((c8_list_sorted []).2.2.2.2.2 rfl).2⟩

/-! ## C9: update never mutates id or created_at -/

/-- C9: on every successful update, the resulting record keeps the stored
id and created_at (the update document carries only the seven writable
fields plus the refreshed updated_at), the store holds the new record under
the same id, and every other id is untouched. -/
theorem c9_update_preserves_identity (db : Db) (now : Timestamp) (productId : String)
    (body : IncomingBody) (p p' : Product)
    (hfind : findById db productId = some p)
    (hok : (updateProductHandler db now productId body).status = 200)
    (hdata : (updateProductHandler db now productId body).data = some p') :
    p'.id = p.id
    ∧ p'.created_at = p.created_at
    ∧ findById (updateProductHandler db now productId body).db productId = some p'
    ∧ (∀ otherId, otherId ≠ productId →
      findById (updateProductHandler db now productId body).db otherId
        = findById db otherId) := by
  by_cases hvalid : isValidObjectId productId
  · cases hb : body.price_new with
    | none =>
      exfalso
      have h500 : (updateProductHandler db now productId body).status = 500 := by
        simp [updateProductHandler, hvalid, hfind, mkUpdateData, hb, parseFloatOpt]
      rw [h500] at hok
      exact absurd hok (by decide)
    | some v =>
      have hnum : (mkUpdateData body).price_new = JsNum.num v := by
        simp [mkUpdateData, hb, parseFloatOpt]
      by_cases hmsgs : (validateUpdateData (mkUpdateData body)).isEmpty
      · have hres : (updateProductHandler db now productId body).data
            = some (applyUpdate p (mkUpdateData body) now) := by
          simp [updateProductHandler, hvalid, hfind, hnum, hmsgs]
        have hdb : (updateProductHandler db now productId body).db
            = replaceById db productId (applyUpdate p (mkUpdateData body) now) := by
          simp [updateProductHandler, hvalid, hfind, hnum, hmsgs]
        rw [hres] at hdata
        have hEq : p' = applyUpdate p (mkUpdateData body) now :=
          (Option.some.inj hdata).symm
        have hpid : p.id = productId := findById_eq_id db productId p hfind
        subst hEq
        have hpid2 : (applyUpdate p (mkUpdateData body) now).id = productId := hpid
        refine ⟨rfl, rfl, ?_, ?_⟩
        · rw [hdb]
          exact findById_replaceById_self db productId p _ hfind hpid2
        · intro otherId hne
          rw [hdb]
          exact findById_replaceById_ne db productId otherId _ hne hpid2
      · exfalso
        have h400 : (updateProductHandler db now productId body).status = 400 := by
          simp [updateProductHandler, hvalid, hfind, hnum, hmsgs]
        rw [h400] at hok
        exact absurd hok (by decide)
  · exfalso
    have h400 : (updateProductHandler db now productId body).status = 400 := by
      simp [updateProductHandler, hvalid]
    rw [h400] at hok
    exact absurd hok (by decide)

/-- C9 witness: the theorem applied to the concrete successful update. -/
theorem c9_update_preserves_identity_witness :
    updatedSample.id = sampleStored.id
    ∧ updatedSample.created_at = sampleStored.created_at
    ∧ findById (updateProductHandler [sampleStored] 5 sampleId bodyFullUpdate).db sampleId
        = some updatedSample :=
  ⟨(c9_update_preserves_identity [sampleStored] 5 sampleId bodyFullUpdate
      sampleStored updatedSample (by decide) (by decide) (by decide)).1,
   (c9_update_preserves_identity [sampleStored] 5 sampleId bodyFullUpdate
      sampleStored updatedSample (by decide) (by decide) (by decide)).2.1,
   (c9_update_preserves_identity [sampleStored] 5 sampleId bodyFullUpdate
      sampleStored updatedSample (by decide) (by decide) (by decide)).2.2.1⟩

/-! ## C10: zero price treated as a missing required field -/

/-- C10: a create request whose price_new is the number 0 is rejected with
the missing-fields error, because the Js truthiness test of the required
fields treats 0 as absent, even though the schema min rule itself does not
flag 0. -/
theorem c10_zero_price_missing_fields (db : Db) (now : Timestamp) (newId : String)
    (body : IncomingBody)
    (hprice : body.price_new = some 0)
    (hname : strFalsy body.product_name = false) :
    (createProductHandler db now newId body).status = 400
    ∧ (createProductHandler db now newId body).error
        = some "Missing required fields: product_name, price_new, brand, category"
    ∧ priceNegative (JsNum.num 0) = false := by
  have hnonempty : body.isEmptyObj = false := by
    cases hb : body.product_name with
    | none =>
      rw [hb] at hname
      simp [strFalsy] at hname
    | some s =>
      simp [IncomingBody.isEmptyObj, hb]
  have hfalsy : numFalsy body.price_new = true := by
    rw [hprice]
    rfl
  have hcond : (strFalsy body.product_name || numFalsy body.price_new
      || strFalsy body.brand || strFalsy body.category) = true := by
    rw [hfalsy]
    simp
  refine ⟨?_, ?_, rfl⟩ <;> simp [createProductHandler, hnonempty, hcond]

/-- A create body whose price is the number 0, the other required fields
present and valid. -/
def bodyZeroPrice : IncomingBody :=
  { product_name := some "Chair", price_new := some 0, brand := some "B",
    category := some "C", description := none, image_url := none, video_url := none }

/-- C10 witness: the theorem applied to the concrete zero-price create. -/
theorem c10_zero_price_missing_fields_witness :
    (createProductHandler [] 0 sampleId bodyZeroPrice).status = 400
    ∧ (createProductHandler [] 0 sampleId bodyZeroPrice).error
        = some "Missing required fields: product_name, price_new, brand, category" :=
  ⟨(c10_zero_price_missing_fields [] 0 sampleId bodyZeroPrice (by decide) (by decide)).1,
   (c10_zero_price_missing_fields [] 0 sampleId bodyZeroPrice (by decide) (by decide)).2.1⟩

end InteriorServer
